import Mathlib

/-!
Shallow embedding of the drawing-snapshot autosave subsystem of the
`daily` repository, and of its Convex backend handlers.

Client side (identical logic in `src/App.tsx` (`DrawingEditor`) and
`src/components/DocumentEditor.tsx` (`DocumentDrawingEditor`)):
  * `saveDrawing`    — the save path: serialize, compare against the
    remembered `snapshotRef`, dispatch a write on a difference.
  * `handleChangeTimer` / `debounceFires` — the trailing-edge 300 ms
    debounce armed by the editor's change events.
  * `teardownFlush`  — the effect-cleanup path: one final `saveDrawing`,
    then `clearTimeout` on any pending debounce handle.
  * `loadEffect`     — the hydration effect guarded by `initialLoadRef`.

Backend (`convex/todos.ts` = `src/unnamed/part_000`, `convex/documents.ts`,
schema in `convex/schema.ts`): every query/mutation handler, modelled as a
function over an explicit database value; a JS `throw` becomes
`Except.error` with the thrown message, returned before any patch is
applied, exactly as the source throws before calling `ctx.db.patch`.
-/

namespace Daily

/-! ## Client-side save path

`saveDrawing` in both components:
```
try {
  const snapshot = JSON.stringify(editor.store.getSnapshot());
  if (snapshot !== snapshotRef.current) {
    updateDrawing({ id, drawing: snapshot });
    snapshotRef.current = snapshot;
  }
} catch (error) { console.error('Failed to save drawing:', error); }
```
`serializeResult` is the outcome of `JSON.stringify(editor.store.getSnapshot())`:
`some s` on success, `none` when serialization throws (the `catch` branch).
The function returns the new value of `snapshotRef.current` together with
the list of writes dispatched to the backend during this attempt. -/

def saveDrawing (serializeResult : Option String) (snapshotRef : Option String) :
    Option String × List String :=
  match serializeResult with
  | none => (snapshotRef, [])
  | some snapshot =>
      if some snapshot = snapshotRef then
        (snapshotRef, [])
      else
        (some snapshot, [snapshot])

/-- Two consecutive save attempts observing the same serialized state `s`,
starting from remembered value `r`: the writes dispatched by both attempts
together. -/
def saveTwiceWrites (s : String) (r : Option String) : List String :=
  let first := saveDrawing (some s) r
  let second := saveDrawing (some s) first.1
  first.2 ++ second.2

/-! ## Debounce (handleChange)

```
const handleChange = () => {
  if (debounceTimerRef.current) { window.clearTimeout(debounceTimerRef.current); }
  debounceTimerRef.current = window.setTimeout(() => { saveDrawing(); ... }, 300);
};
```
An edit event at time `t` cancels any pending debounce timer and arms a new
one with deadline `t + 300`. Given the session's edit events in time order
as `(time, editor state when the timer would fire)` pairs, `debounceFires`
returns the debounce-triggered save attempts that actually fire (assuming
the session stays open past every deadline and no blur intervenes): a timer
armed at `t` fires at `t + 300` unless a later edit arrives strictly before
that deadline, in which case `clearTimeout` cancels it and the later edit's
timer replaces it. -/

def debounceFires : List (Nat × String) → List (Nat × String)
  | [] => []
  | [(t, s)] => [(t + 300, s)]
  | (t, s) :: (t₂, s₂) :: rest =>
      if t₂ < t + 300 then
        debounceFires ((t₂, s₂) :: rest)
      else
        (t + 300, s) :: debounceFires ((t₂, s₂) :: rest)

/-- Whether every edit event in the list occurs strictly less than 300 ms
after the previous one (a single debounce burst). -/
def tightBurst : List (Nat × String) → Bool
  | [] => true
  | [_] => true
  | (t, _) :: (t₂, s₂) :: rest =>
      decide (t₂ < t + 300) && tightBurst ((t₂, s₂) :: rest)

/-! ## Teardown flush

Effect cleanup in both components:
```
return () => {
  editor.off('change', handleChange);
  window.removeEventListener('blur', handleBlur);
  saveDrawing();
  if (debounceTimerRef.current) { window.clearTimeout(debounceTimerRef.current); }
};
```
The session state tracked here is the pending debounce handle (deadline of
the armed timer, if any) and `snapshotRef`. -/

structure SessionRefs where
  debounceTimer : Option Nat
  snapshotRef : Option String
  deriving Repr, DecidableEq

/-- Teardown: invoke the save path one final time, then clear any pending
debounce timer. Returns the session refs after teardown and the writes
dispatched by the teardown itself. A cancelled timer never fires, so these
are all the writes the teardown produces. -/
def teardownFlush (serializeResult : Option String) (sess : SessionRefs) :
    SessionRefs × List String :=
  let saved := saveDrawing serializeResult sess.snapshotRef
  ({ debounceTimer := none, snapshotRef := saved.1 }, saved.2)

/-! ## Load path

```
React.useEffect(() => {
  if (editor && drawingData && !initialLoadRef.current) {
    try {
      const snapshot = JSON.parse(drawingData);
      editor.store.loadSnapshot(snapshot);
      initialLoadRef.current = true;
    } catch (error) { console.error('Failed to load drawing:', error); }
  }
}, [editor, drawingData]);
```
`parse` models `JSON.parse`: `some parsed` on success, `none` when it
throws. The editor document starts empty (`none`); `loadSnapshot` replaces
it by the parsed snapshot. JS truthiness of `drawingData` makes the guard
fail for the empty string as well as for `undefined`. -/

structure LoadState where
  initialLoad : Bool
  editorDoc : Option String
  deriving Repr, DecidableEq

/-- The state of a fresh drawing editor: nothing hydrated, empty drawing. -/
def freshLoadState : LoadState := { initialLoad := false, editorDoc := none }

def loadEffect (editorReady : Bool) (parse : String → Option String)
    (drawingData : Option String) (st : LoadState) : LoadState :=
  match drawingData with
  | none => st
  | some data =>
      if editorReady && data ≠ "" && !st.initialLoad then
        match parse data with
        | some snapshot => { initialLoad := true, editorDoc := some snapshot }
        | none => st
      else
        st

/-! ## Entity views

The todo row in `App.tsx` renders the todo's text, its description
(`todo.description ?? ""` fed to the markdown editor) and, when the drawing
panel is open, a fresh tldraw editor hydrated through `loadEffect` from
`todo.drawing`. -/

structure TodoView where
  text : String
  description : String
  drawingEditor : LoadState
  deriving Repr, DecidableEq

/-- Render a todo row with the drawing panel open, as `TodoContent` does:
text shown directly, `todo.description ?? ""` fed to the markdown editor,
and a fresh tldraw editor hydrated from `todo.drawing` through the load
effect. -/
def renderTodoRow (parse : String → Option String)
    (text : String) (description : Option String) (drawing : Option String) :
    TodoView :=
  { text := text
    description := description.getD ""
    drawingEditor := loadEffect true parse drawing freshLoadState }

/-! ## Backend data model (`convex/schema.ts`)

Ids of users, todos and documents are opaque; they are modelled as `Nat`.
`authTables` contributes a `users` table of which only the set of existing
ids matters to the handlers. -/

structure Todo where
  text : String
  description : Option String
  completed : Bool
  userId : Nat
  hidden : Bool
  dueDate : Nat
  drawing : Option String
  deriving Repr, DecidableEq

structure Document where
  title : String
  content : Option String
  userId : Nat
  createdAt : Nat
  updatedAt : Nat
  emoji : Option String
  drawing : Option String
  deriving Repr, DecidableEq

/-- The Convex database: the user ids present in the `users` table, and the
`todos` and `documents` tables as id-keyed association lists. -/
structure Db where
  users : List Nat
  todos : List (Nat × Todo)
  documents : List (Nat × Document)
  deriving Repr, DecidableEq

/-- Model of `ctx.db.get` on the todos table. -/
def Db.getTodo (db : Db) (id : Nat) : Option Todo :=
  (db.todos.find? (fun p => p.1 == id)).map (fun p => p.2)

/-- Model of `ctx.db.get` on the documents table. -/
def Db.getDocument (db : Db) (id : Nat) : Option Document :=
  (db.documents.find? (fun p => p.1 == id)).map (fun p => p.2)

/-- Model of `ctx.db.patch` restricted to one todo id. -/
def Db.patchTodo (db : Db) (id : Nat) (f : Todo → Todo) : Db :=
  { db with todos := db.todos.map (fun p => if p.1 == id then (p.1, f p.2) else p) }

/-- Model of `ctx.db.patch` restricted to one document id. -/
def Db.patchDocument (db : Db) (id : Nat) (f : Document → Document) : Db :=
  { db with
    documents := db.documents.map (fun p => if p.1 == id then (p.1, f p.2) else p) }

/-! ## Backend handlers (`convex/todos.ts`, `convex/documents.ts`)

`auth` is the result of `getAuthUserId(ctx)`: `some userId` or `none` for
an unauthenticated caller. A thrown `Error(msg)` is `Except.error msg`.
Queries return `Except String α`; mutations return the database after the
call together with `Except String α`, and every `throw` happens before any
`ctx.db.patch` / `insert` / `delete`, so the error branches return the
input database unchanged. -/

/-- Handler of `todos.list`: unauthenticated callers get `[]`; otherwise the
caller's todos with `dueDate ≥ today` (midnight of the current day,
`todayStart`). -/
def todosList (auth : Option Nat) (todayStart : Nat) (db : Db) :
    Except String (List Todo) :=
  match auth with
  | none => Except.ok []
  | some userId =>
      Except.ok
        ((db.todos.filter
          (fun p => p.2.userId == userId && todayStart ≤ p.2.dueDate)).map
            (fun p => p.2))

/-- Handler of `todos.add`: inserts a fresh todo due today. `freshId` models
the id generated by `ctx.db.insert`. -/
def todosAdd (auth : Option Nat) (text : String) (todayStart freshId : Nat)
    (db : Db) : Db × Except String Unit :=
  match auth with
  | none => (db, Except.error "Not authenticated")
  | some userId =>
      ({ db with
          todos := db.todos ++
            [(freshId,
              { text := text, description := some "", completed := false
                userId := userId, hidden := false, dueDate := todayStart
                drawing := none })] },
        Except.ok ())

/-- Handler of `todos.updateDrawing`: the drawing-write path for todos. -/
def todosUpdateDrawing (auth : Option Nat) (id : Nat) (drawing : String)
    (db : Db) : Db × Except String Unit :=
  match auth with
  | none => (db, Except.error "Not authenticated")
  | some userId =>
      match db.getTodo id with
      | none => (db, Except.error "Todo not found")
      | some todo =>
          if todo.userId == userId then
            (db.patchTodo id (fun t => { t with drawing := some drawing }),
              Except.ok ())
          else
            (db, Except.error "Todo not found")

/-- Handler of `todos.toggleComplete`. -/
def todosToggleComplete (auth : Option Nat) (id : Nat) (db : Db) :
    Db × Except String Unit :=
  match auth with
  | none => (db, Except.error "Not authenticated")
  | some userId =>
      match db.getTodo id with
      | none => (db, Except.error "Todo not found")
      | some todo =>
          if todo.userId == userId then
            (db.patchTodo id (fun t => { t with completed := !todo.completed }),
              Except.ok ())
          else
            (db, Except.error "Todo not found")

/-- Handler of `todos.updateText`. -/
def todosUpdateText (auth : Option Nat) (id : Nat) (text : String) (db : Db) :
    Db × Except String Unit :=
  match auth with
  | none => (db, Except.error "Not authenticated")
  | some userId =>
      match db.getTodo id with
      | none => (db, Except.error "Todo not found")
      | some todo =>
          if todo.userId == userId then
            (db.patchTodo id (fun t => { t with text := text }), Except.ok ())
          else
            (db, Except.error "Todo not found")

/-- Handler of `todos.updateDescription`. -/
def todosUpdateDescription (auth : Option Nat) (id : Nat) (description : String)
    (db : Db) : Db × Except String Unit :=
  match auth with
  | none => (db, Except.error "Not authenticated")
  | some userId =>
      match db.getTodo id with
      | none => (db, Except.error "Todo not found")
      | some todo =>
          if todo.userId == userId then
            (db.patchTodo id (fun t => { t with description := some description }),
              Except.ok ())
          else
            (db, Except.error "Todo not found")

/-- Handler of `todos.remove`. -/
def todosRemove (auth : Option Nat) (id : Nat) (db : Db) :
    Db × Except String Unit :=
  match auth with
  | none => (db, Except.error "Not authenticated")
  | some userId =>
      match db.getTodo id with
      | none => (db, Except.error "Todo not found")
      | some todo =>
          if todo.userId == userId then
            ({ db with todos := db.todos.filter (fun p => p.1 != id) },
              Except.ok ())
          else
            (db, Except.error "Todo not found")

/-- Handler of `todos.moveToNextDay`. `new Date(dueDate); setDate(+1)` adds
one calendar day, modelled as 86400000 ms. -/
def todosMoveToNextDay (auth : Option Nat) (id : Nat) (db : Db) :
    Db × Except String Unit :=
  match auth with
  | none => (db, Except.error "Not authenticated")
  | some userId =>
      match db.getTodo id with
      | none => (db, Except.error "Todo not found")
      | some todo =>
          if todo.userId == userId then
            (db.patchTodo id (fun t => { t with dueDate := todo.dueDate + 86400000 }),
              Except.ok ())
          else
            (db, Except.error "Todo not found")

/-- Handler of `documents.list`: the caller's documents, newest first (the
`order desc` over insertion order is a reversal of the table scan). -/
def documentsList (auth : Option Nat) (db : Db) :
    Except String (List Document) :=
  match auth with
  | none => Except.error "Not authenticated"
  | some userId =>
      if db.users.contains userId then
        Except.ok
          (((db.documents.filter (fun p => p.2.userId == userId)).map
            (fun p => p.2)).reverse)
      else
        Except.error "User not found"

/-- Handler of `documents.get`. -/
def documentsGet (auth : Option Nat) (id : Nat) (db : Db) :
    Except String Document :=
  match auth with
  | none => Except.error "Not authenticated"
  | some userId =>
      match db.getDocument id with
      | none => Except.error "Document not found"
      | some document =>
          if db.users.contains userId && document.userId == userId then
            Except.ok document
          else
            Except.error "Unauthorized"

/-- Handler of `documents.create`: inserts an untitled document and returns
its id. `now` models `Date.now()`, `freshId` the id from `ctx.db.insert`. -/
def documentsCreate (auth : Option Nat) (now freshId : Nat) (db : Db) :
    Db × Except String Nat :=
  match auth with
  | none => (db, Except.error "Not authenticated")
  | some userId =>
      if db.users.contains userId then
        ({ db with
            documents := db.documents ++
              [(freshId,
                { title := "Untitled Document", content := some ""
                  userId := userId, createdAt := now, updatedAt := now
                  emoji := none, drawing := none })] },
          Except.ok freshId)
      else
        (db, Except.error "User not found")

/-- Handler of `documents.update`: patches whichever of title, content and
emoji were supplied, plus `updatedAt`. -/
def documentsUpdate (auth : Option Nat) (id : Nat)
    (title content emoji : Option String) (now : Nat) (db : Db) :
    Db × Except String Unit :=
  match auth with
  | none => (db, Except.error "Not authenticated")
  | some userId =>
      match db.getDocument id with
      | none => (db, Except.error "Document not found")
      | some existingDocument =>
          if db.users.contains userId && existingDocument.userId == userId then
            (db.patchDocument id (fun d =>
                { d with
                  title := title.getD d.title
                  content := match content with
                    | some c => some c
                    | none => d.content
                  emoji := match emoji with
                    | some e => some e
                    | none => d.emoji
                  updatedAt := now }),
              Except.ok ())
          else
            (db, Except.error "Unauthorized")

/-- Handler of `documents.remove`. -/
def documentsRemove (auth : Option Nat) (id : Nat) (db : Db) :
    Db × Except String Unit :=
  match auth with
  | none => (db, Except.error "Not authenticated")
  | some userId =>
      match db.getDocument id with
      | none => (db, Except.error "Document not found")
      | some existingDocument =>
          if db.users.contains userId && existingDocument.userId == userId then
            ({ db with documents := db.documents.filter (fun p => p.1 != id) },
              Except.ok ())
          else
            (db, Except.error "Unauthorized")

/-- Handler of `documents.updateDrawing`: the drawing-write path for
documents; also touches `updatedAt`. -/
def documentsUpdateDrawing (auth : Option Nat) (id : Nat) (drawing : String)
    (now : Nat) (db : Db) : Db × Except String Unit :=
  match auth with
  | none => (db, Except.error "Not authenticated")
  | some userId =>
      match db.getDocument id with
      | none => (db, Except.error "Document not found")
      | some existingDocument =>
          if db.users.contains userId && existingDocument.userId == userId then
            (db.patchDocument id (fun d =>
                { d with drawing := some drawing, updatedAt := now }),
              Except.ok ())
          else
            (db, Except.error "Unauthorized")

/-! ## Concrete sample data for witnesses and counterexamples -/

def sampleTodo : Todo :=
  { text := "water plants", description := some "balcony", completed := false
    userId := 1, hidden := false, dueDate := 1000, drawing := some "\x7boops" }

def sampleDocument : Document :=
  { title := "Notes", content := some "hello", userId := 1, createdAt := 5
    updatedAt := 5, emoji := none, drawing := some "snap1" }

def sampleDb : Db :=
  { users := [1, 2], todos := [(10, sampleTodo)], documents := [(20, sampleDocument)] }

/-! ## Theorems -/

/-- C1: a save attempt dispatches a write to storage iff the freshly
serialized snapshot differs from the remembered last-persisted value
(`snapshotRef`); in particular, two consecutive save attempts with
structurally identical serialized state produce exactly one write. -/
theorem save_write_iff_changed (s : String) (r : Option String) :
    ((saveDrawing (some s) r).2 ≠ [] ↔ some s ≠ r) ∧
    (some s ≠ r → saveTwiceWrites s r = [s]) := by
  constructor
  · by_cases h : some s = r <;> simp [saveDrawing, h]
  · intro h
    simp [saveTwiceWrites, saveDrawing, h]

/-- Witness for C1 at a concrete input: the first attempt with snapshot
`"a"` and empty `snapshotRef` writes, and a second identical attempt adds
no second write. -/
theorem save_write_iff_changed_witness :
    (saveDrawing (some "a") none).2 ≠ [] ∧ saveTwiceWrites "a" none = ["a"] :=
  ⟨(save_write_iff_changed "a" none).1.mpr (by simp),
    (save_write_iff_changed "a" none).2 (by simp)⟩

/-- C4: the very first successful serialization of a session always
triggers a persistence write, whatever the serialized value `s` is (in
particular even when `s` equals the snapshot loaded from storage), because
`snapshotRef` starts at `null` each session and `s ≠ null`. -/
theorem first_save_always_writes (s : String) :
    saveDrawing (some s) none = (some s, [s]) := by
  simp [saveDrawing]

/-- C7: when serialization throws, the save attempt is aborted by the
`catch` branch as a total function (no crash), no write is issued, and the
remembered last-persisted value is returned untouched. -/
theorem serialize_failure_aborts (r : Option String) :
    saveDrawing none r = (r, []) :=
  rfl

/-- C2: tearing down a session with a pending debounced save not yet fired
(`debounceTimer = some d`) whose latest serialized state `s` is not yet
persisted runs the save path once before clearing the timer: exactly one
write carrying `s` results, and the pending timer is cancelled so it can
never fire a second one. -/
theorem teardown_flush_writes_latest (s : String) (sess : SessionRefs) (d : Nat)
    (_hpending : sess.debounceTimer = some d)
    (hchanged : some s ≠ sess.snapshotRef) :
    teardownFlush (some s) sess =
      ({ debounceTimer := none, snapshotRef := some s }, [s]) := by
  simp [teardownFlush, saveDrawing, hchanged]

/-- Witness for C2 at a concrete input: a session with a timer pending at
deadline 700 and last-persisted `"s1"` is torn down while the editor
serializes to `"s2"`. -/
theorem teardown_flush_writes_latest_witness :
    teardownFlush (some "s2")
        { debounceTimer := some 700, snapshotRef := some "s1" } =
      ({ debounceTimer := none, snapshotRef := some "s2" }, ["s2"]) :=
  teardown_flush_writes_latest "s2"
    { debounceTimer := some 700, snapshotRef := some "s1" } 700 rfl (by simp)

/-- C3: for a burst of N ≥ 1 edit events each arriving strictly less than
300 ms after the previous one, exactly one debounce-triggered save attempt
fires, at 300 ms after the last event and with the editor state as of the
last event — each edit's `clearTimeout` having cancelled and replaced the
previously armed timer. -/
theorem burst_single_debounce_fire (rest : List (Nat × String))
    (e : Nat × String) (t : Nat) (s : String)
    (hburst : tightBurst (e :: rest) = true)
    (hlast : (e :: rest).getLast? = some (t, s)) :
    debounceFires (e :: rest) = [(t + 300, s)] := by
  induction rest generalizing e with
  | nil =>
      obtain ⟨t₁, s₁⟩ := e
      simp [List.getLast?] at hlast
      simp [debounceFires, hlast.1, hlast.2]
  | cons e₂ rest ih =>
      obtain ⟨t₁, s₁⟩ := e
      obtain ⟨t₂, s₂⟩ := e₂
      simp only [tightBurst, Bool.and_eq_true, decide_eq_true_eq] at hburst
      rw [List.getLast?_cons_cons] at hlast
      simp only [debounceFires, if_pos hburst.1]
      exact ih (t₂, s₂) hburst.2 hlast

/-- Witness for C3 at a concrete burst: edits at 0 ms, 100 ms and 250 ms
(gaps 100 ms and 150 ms, both < 300 ms) yield a single fire at 550 ms with
the last state. -/
theorem burst_single_debounce_fire_witness :
    debounceFires [(0, "a"), (100, "ab"), (250, "abc")] = [(550, "abc")] :=
  burst_single_debounce_fire [(100, "ab"), (250, "abc")] (0, "a") 250 "abc"
    (by decide) (by decide)

/-- C5 counterexample: the claim says every entity operation fails with an
authorization error for an unauthenticated caller, but the `todos.list`
handler returns `Except.ok []` — a success, not an error — when
`getAuthUserId` yields no user. -/
theorem todos_list_unauthenticated_succeeds :
    (todosList none 0 sampleDb).isOk = true :=
  rfl

/-- C5 (amended): for an unauthenticated caller, every entity operation
except `todos.list` fails fast with the error `"Not authenticated"` and
returns the database unchanged (so no entity data is written), and its
outcome is the same for every database (so no entity data is read);
`todos.list` instead returns the empty list, likewise without touching the
database. -/
theorem unauthenticated_fails_closed (db : Db)
    (todayStart freshId now id : Nat) (text drawing description : String)
    (title content emoji : Option String) :
    todosList none todayStart db = Except.ok [] ∧
    todosAdd none text todayStart freshId db =
      (db, Except.error "Not authenticated") ∧
    todosUpdateDrawing none id drawing db =
      (db, Except.error "Not authenticated") ∧
    todosToggleComplete none id db = (db, Except.error "Not authenticated") ∧
    todosUpdateText none id text db = (db, Except.error "Not authenticated") ∧
    todosUpdateDescription none id description db =
      (db, Except.error "Not authenticated") ∧
    todosRemove none id db = (db, Except.error "Not authenticated") ∧
    todosMoveToNextDay none id db = (db, Except.error "Not authenticated") ∧
    documentsList none db = Except.error "Not authenticated" ∧
    documentsGet none id db = Except.error "Not authenticated" ∧
    documentsCreate none now freshId db = (db, Except.error "Not authenticated") ∧
    documentsUpdate none id title content emoji now db =
      (db, Except.error "Not authenticated") ∧
    documentsRemove none id db = (db, Except.error "Not authenticated") ∧
    documentsUpdateDrawing none id drawing now db =
      (db, Except.error "Not authenticated") :=
  ⟨rfl, rfl, rfl, rfl, rfl, rfl, rfl, rfl, rfl, rfl, rfl, rfl, rfl, rfl⟩

/-- C6: a drawing write (`todos.updateDrawing` or `documents.updateDrawing`)
against an entity owned by a different user is rejected — with
`"Todo not found"` for todos and `"Unauthorized"` for documents — and the
database, in particular the stored drawing, is returned unchanged: the
error is raised before any patch is applied. -/
theorem cross_owner_write_rejected (db : Db) (caller tid did now : Nat)
    (todo : Todo) (doc : Document) (drawing : String)
    (ht : db.getTodo tid = some todo) (hto : todo.userId ≠ caller)
    (hd : db.getDocument did = some doc) (hdo : doc.userId ≠ caller) :
    todosUpdateDrawing (some caller) tid drawing db =
      (db, Except.error "Todo not found") ∧
    documentsUpdateDrawing (some caller) did drawing now db =
      (db, Except.error "Unauthorized") := by
  constructor
  · simp [todosUpdateDrawing, ht, hto]
  · simp [documentsUpdateDrawing, hd, hdo]

/-- Witness for C6 at a concrete input: user 2 attempts the drawing write
on todo 10 and document 20 of `sampleDb`, both owned by user 1. -/
theorem cross_owner_write_rejected_witness :
    todosUpdateDrawing (some 2) 10 "d" sampleDb =
      (sampleDb, Except.error "Todo not found") ∧
    documentsUpdateDrawing (some 2) 20 "d" 99 sampleDb =
      (sampleDb, Except.error "Unauthorized") :=
  cross_owner_write_rejected sampleDb 2 10 20 99 sampleTodo sampleDocument "d"
    rfl (by decide) rfl (by decide)

/-- C8: when parsing the stored snapshot throws, the failure is caught
inside the load effect: the row still renders with the todo's text fields
intact and the drawing editor left in its empty initial state. -/
theorem corrupt_snapshot_isolated (parse : String → Option String)
    (text : String) (description : Option String) (data : String)
    (hfail : parse data = none) :
    renderTodoRow parse text description (some data) =
      { text := text, description := description.getD ""
        drawingEditor := freshLoadState } := by
  by_cases hempty : data = "" <;>
    simp [renderTodoRow, loadEffect, freshLoadState, hfail, hempty]

/-- Witness for C8 at a concrete input: a todo whose stored drawing is the
unparsable string of `sampleTodo`, rendered with a parse function that
rejects it. -/
theorem corrupt_snapshot_isolated_witness :
    renderTodoRow (fun _ => none) "water plants" (some "balcony")
        (some "\x7boops") =
      { text := "water plants", description := "balcony"
        drawingEditor := freshLoadState } :=
  corrupt_snapshot_isolated (fun _ => none) "water plants" (some "balcony")
    "\x7boops" rfl

/-- C9: a session hydrates at most once: a first successful run of the load
effect installs the parsed snapshot and sets the one-shot `initialLoadRef`
flag, and a second run of the load effect with the same stored snapshot is
a no-op. -/
theorem hydrate_at_most_once (parse : String → Option String) (st : LoadState)
    (data snapshot : String)
    (hsucc : parse data = some snapshot) (hdata : data ≠ "")
    (hflag : st.initialLoad = false) :
    loadEffect true parse (some data) st =
      { initialLoad := true, editorDoc := some snapshot } ∧
    loadEffect true parse (some data) (loadEffect true parse (some data) st) =
      loadEffect true parse (some data) st := by
  have h1 : loadEffect true parse (some data) st =
      { initialLoad := true, editorDoc := some snapshot } := by
    simp [loadEffect, hsucc, hdata, hflag]
  refine ⟨h1, ?_⟩
  rw [h1]
  simp [loadEffect]

/-- Witness for C9 at a concrete input: hydrating a fresh session from the
stored snapshot `"good"` with a parse function that accepts it. -/
theorem hydrate_at_most_once_witness :
    loadEffect true (fun d => if d = "good" then some "parsed" else none)
        (some "good") freshLoadState =
      { initialLoad := true, editorDoc := some "parsed" } ∧
    loadEffect true (fun d => if d = "good" then some "parsed" else none)
        (some "good")
        (loadEffect true (fun d => if d = "good" then some "parsed" else none)
          (some "good") freshLoadState) =
      loadEffect true (fun d => if d = "good" then some "parsed" else none)
        (some "good") freshLoadState :=
  hydrate_at_most_once (fun d => if d = "good" then some "parsed" else none)
    freshLoadState "good" "parsed" (by simp) (by simp) rfl

/-- C10: when parsing the stored snapshot throws, the load effect leaves
the session state — including the still-unset `initialLoadRef` flag —
exactly as it was, so every subsequent run of the load effect with the same
still-corrupt snapshot re-attempts hydration and is again a no-op: iterating
the effect any number of times returns the same state. -/
theorem corrupt_load_reattempts (parse : String → Option String)
    (data : String) (st : LoadState) (hfail : parse data = none) :
    loadEffect true parse (some data) st = st ∧
    ∀ n : Nat, (fun s => loadEffect true parse (some data) s)^[n] st = st := by
  have h1 : loadEffect true parse (some data) st = st := by
    by_cases hempty : data = "" <;> by_cases hflag : st.initialLoad <;>
      simp [loadEffect, hfail, hempty, hflag]
  refine ⟨h1, ?_⟩
  intro n
  induction n with
  | zero => rfl
  | succ n ihn => rw [Function.iterate_succ_apply', ihn, h1]

/-- Witness for C10 at a concrete input: three runs of the load effect over
a corrupt snapshot leave a fresh session unchanged, flag still unset. -/
theorem corrupt_load_reattempts_witness :
    loadEffect true (fun _ => none) (some "x") freshLoadState =
      freshLoadState ∧
    (fun s => loadEffect true (fun _ => none) (some "x") s)^[3] freshLoadState =
      freshLoadState :=
  ⟨(corrupt_load_reattempts (fun _ => none) "x" freshLoadState rfl).1,
    (corrupt_load_reattempts (fun _ => none) "x" freshLoadState rfl).2 3⟩

end Daily
